import Mathlib

/-!
Verification of the veve scheduling engine: a shallow embedding of the date
utilities (`src/lib/date`), the `loadSessions` repository shim of the
calendar screen, and the `Calendar` component's month cache, conflict
detection and session-creation logic.

Modelling conventions:
* A JavaScript `Date` is an absolute instant measured in whole minutes,
  represented as `Int`.  The code paths modelled here never produce
  sub-minute values: `setHours(h, m, 0, 0)` zeroes seconds and
  milliseconds, and month ranges start at local midnight.
* The host timezone is modelled with UTC offset 0, so the local calendar
  fields read by `getFullYear`/`getMonth`/`getDate` coincide with the UTC
  fields of the instant.  Daylight-saving transitions are outside the
  model (the specification declares timezone-database behaviour beyond the
  host locale a non-goal).
* JavaScript's calendar normalisation (out-of-range month or day-of-month
  arguments to the `Date` constructor, `setDate` overflow) is modelled by
  proleptic-Gregorian day arithmetic.
* `HH:MM` strings of the creation form are represented by their parsed
  hour and minute numbers, and the `new Date('YYYY-MM-DD')` parse of the
  form's date field is passed as the corresponding midnight instant.
-/

/-- Days since 1970-01-01 of the proleptic-Gregorian date `y-m-d`
(month 1..12), matching JavaScript `Date` calendar arithmetic. -/
def daysFromCivil (y m d : Int) : Int :=
  let y2 := if m ≤ 2 then y - 1 else y
  let era := y2 / 400
  let yoe := y2 - era * 400
  let doy := (153 * (m + (if 2 < m then -3 else 9)) + 2) / 5 + d - 1
  let doe := yoe * 365 + yoe / 4 - yoe / 100 + doy
  era * 146097 + doe - 719468

/-- Proleptic-Gregorian date `(year, month, day)` of a count of days since
1970-01-01; inverse of `daysFromCivil`. -/
def civilFromDays (z0 : Int) : Int × Int × Int :=
  let z := z0 + 719468
  let era := z / 146097
  let doe := z - era * 146097
  let yoe := (doe - doe / 1460 + doe / 36524 - doe / 146096) / 365
  let y := yoe + era * 400
  let doy := doe - (365 * yoe + yoe / 4 - yoe / 100)
  let mp := (5 * doy + 2) / 153
  let d := doy - (153 * mp + 2) / 5 + 1
  let m := mp + (if mp < 10 then 3 else -9)
  (if m ≤ 2 then y + 1 else y, m, d)

/-- `Date.prototype.setHours(h, mi, 0, 0)`: keep the instant's local
calendar day, set the time of day to `h` hours `mi` minutes (out-of-range
values roll over, exactly as in JavaScript). -/
def setHours (t h mi : Int) : Int := t / 1440 * 1440 + h * 60 + mi

/-- `Date.prototype.getHours` under the offset-0 model. -/
def getHours (t : Int) : Int := (t % 1440) / 60

/-- `Date.prototype.getMinutes` under the offset-0 model. -/
def getMinutes (t : Int) : Int := (t % 1440) % 60

/-- Left-pad a (nonnegative) numeral to two digits: `String(n).padStart(2, '0')`. -/
def pad2 (n : Int) : String := if n < 10 then "0" ++ toString n else toString n

/-- The `YYYY-MM-DD` date key of an epoch-day count. -/
def dateKeyOfDay (z : Int) : String :=
  let c := civilFromDays z
  toString c.1 ++ "-" ++ pad2 c.2.1 ++ "-" ++ pad2 c.2.2

/-- `dateKey(date)` from `src/lib/date`: `YYYY-MM-DD` of the instant's
local calendar day. -/
def dateKey (t : Int) : String := dateKeyOfDay (t / 1440)

/-- `toUTCISO` from `src/lib/date`: the identity on instants in this model
(an ISO string denotes exactly its instant). -/
def toUTCISO (t : Int) : Int := t

/-- `toLocal` from `src/lib/date`: the identity on instants in this model. -/
def toLocal (t : Int) : Int := t

/-- `dateRangesOverlap` from `src/lib/date`:
`start1 < end2 && start2 < end1`. -/
def dateRangesOverlap (start1 end1 start2 end2 : Int) : Bool :=
  decide (start1 < end2) && decide (start2 < end1)

/-- `getWeeklyRepeatDates` from `src/lib/date`: for `i = 1..weeks`, the
instant `7 * i` days after `startDate` (a nonpositive `weeks` yields an
empty list, as the JavaScript loop does not run). -/
def getWeeklyRepeatDates (startDate weeks : Int) : List Int :=
  (List.range weeks.toNat).map (fun i => startDate + (Int.ofNat i + 1) * 7 * 1440)

/-- `new Date(y, monthIndex, day)` at local midnight, as an epoch-day
count: JavaScript normalises an out-of-range (0-based) `monthIndex` into
the year and an out-of-range `day` into the month. -/
def jsMakeDay (y monthIndex day : Int) : Int :=
  daysFromCivil (y + monthIndex / 12) (monthIndex % 12 + 1) 1 + (day - 1)

/-- `getMonthRange` from `src/lib/date`: first day of the month minus
`weeksPadding * 7` days through last day of the month plus
`weeksPadding * 7` days, as instants (local midnight). -/
def getMonthRange (year month weeksPadding : Int) : Int × Int :=
  let startOfMonth := jsMakeDay year (month - 1) 1
  let endOfMonth := jsMakeDay year month 0
  let paddingDays := weeksPadding * 7
  ((startOfMonth - paddingDays) * 1440, (endOfMonth + paddingDays) * 1440)

/-- Session status, from the `Session` interface of
`src/components/Calendar.tsx`. -/
inductive SessionStatus where
  | booked
  | completed
  | cancelled
  | noShow
deriving DecidableEq, BEq

/-- The `Session` entity of `src/components/Calendar.tsx`. -/
structure Session where
  id : String
  clientId : String
  clientName : Option String := none
  date : String
  startISO : Int
  endISO : Int
  status : SessionStatus
  location : Option String := none
  notes : Option String := none
  recurring : Option Bool := none
deriving DecidableEq

/-- The `SessionFilters` of `src/components/Calendar.tsx`; an absent
`status` array is the empty list, an absent `clientId` is `none`. -/
structure SessionFilters where
  status : List SessionStatus := []
  clientId : Option String := none
deriving DecidableEq

/-- `loadSessions` of the calendar screen (`src/unnamed/part_000`):
keep the stored sessions whose `startISO` lies in the closed range, then
apply the status filter if one is present (returning immediately), else
the clientId filter if one is present (an empty string is falsy in
JavaScript and skips the branch). -/
def loadSessions (stored : List Session) (startDate endDate : Int)
    (filters : Option SessionFilters) : List Session :=
  let filtered := stored.filter
    (fun s => decide (startDate ≤ s.startISO) && decide (s.startISO ≤ endDate))
  match filters with
  | none => filtered
  | some f =>
    if 0 < f.status.length then
      filtered.filter (fun s => f.status.contains s.status)
    else
      match f.clientId with
      | some cid =>
        if cid = "" then filtered
        else filtered.filter (fun s => s.clientId == cid)
      | none => filtered

/-- The fields of the externally-owned `Client` record that the calendar
reads (`id`, `displayName`, `firstName`, `lastName`). -/
structure Client where
  id : String
  displayName : Option String := none
  firstName : Option String := none
  lastName : Option String := none
deriving DecidableEq

/-- JavaScript `s || t` for an optional string `s`: `undefined` and the
empty string are falsy. -/
def jsOrStr (s : Option String) (t : String) : String :=
  match s with
  | some v => if v = "" then t else v
  | none => t

/-- `client?.displayName || `${client?.firstName || ''} ${client?.lastName || ''}`.trim()`
from `createSessions` in `src/components/Calendar.tsx`. -/
def clientLabel (client : Option Client) : String :=
  jsOrStr (client.bind Client.displayName)
    ((jsOrStr (client.bind Client.firstName) "" ++ " " ++
      jsOrStr (client.bind Client.lastName) "").trim)

/-- `CreateSessionFormData` of `src/components/Calendar.tsx`, with the
`HH:MM` time strings represented by their parsed hour/minute numbers. -/
structure CreateSessionFormData where
  clientId : String
  date : String
  startHour : Int
  startMin : Int
  endHour : Int
  endMin : Int
  duration : Int
  status : SessionStatus
  location : String
  notes : String
  repeatWeekly : Bool
  repeatWeeks : Int
deriving DecidableEq

/-- The `sessionsByDate` record: date key to day bucket. -/
abbrev Buckets := List (String × List Session)

/-- Whether a JavaScript record holds the key `k`. -/
def hasKey (m : Buckets) (k : String) : Bool := m.any (fun p => p.1 == k)

/-- `record[k] || []`: the bucket stored under `k`, or empty. -/
def bucketLookup (m : Buckets) (k : String) : List Session :=
  ((m.find? (fun p => p.1 == k)).map Prod.snd).getD []

/-- One step of the `sessions.reduce` grouping in `fetchMonth`
(`src/components/Calendar.tsx`): push `s` onto the bucket of its `date`
key, creating the bucket if absent. -/
def pushGrouped (acc : Buckets) (s : Session) : Buckets :=
  if acc.any (fun p => p.1 == s.date) then
    acc.map (fun p => if p.1 == s.date then (p.1, p.2 ++ [s]) else p)
  else acc ++ [(s.date, [s])]

/-- The `sessions.reduce` grouping of `fetchMonth`: group a fetched
session list by its `date` field. -/
def groupByDate (sessions : List Session) : Buckets :=
  sessions.foldl pushGrouped []

/-- The object spread `{ ...prev, ...grouped }` of `fetchMonth`, as a
key-value record: keys of `grouped` take its buckets wholesale, all other
keys keep the buckets of `prev`. -/
def spreadMerge (prev grouped : Buckets) : Buckets :=
  grouped ++ prev.filter (fun p => !(hasKey grouped p.1))

/-- `checkConflicts` from `src/components/Calendar.tsx`: filter the day
bucket of `startDate`'s date key to the sessions, other than `excludeId`,
whose interval overlaps `[startDate, endDate)` per `dateRangesOverlap`. -/
def checkConflicts (sessionsByDate : Buckets) (startDate endDate : Int)
    (excludeId : Option String) : List Session :=
  (bucketLookup sessionsByDate (dateKey startDate)).filter (fun s =>
    decide (some s.id ≠ excludeId) &&
      dateRangesOverlap startDate endDate (toLocal s.startISO) (toLocal s.endISO))

/-- A session not yet assigned an id (`Omit<Session, 'id'>`). -/
structure SessionData where
  clientId : String
  clientName : String
  date : String
  startISO : Int
  endISO : Int
  status : SessionStatus
  location : Option String
  notes : Option String
  recurring : Option Bool
deriving DecidableEq

/-- The `baseSession` object built inside `createSessions`
(`src/components/Calendar.tsx`): `parsedDate` is the `new Date(createForm.date)`
instant; start and end are that day with the form's times set. -/
def baseSessionData (clients : List Client) (form : CreateSessionFormData)
    (parsedDate : Int) : SessionData :=
  let startDate := setHours parsedDate form.startHour form.startMin
  let endDate := setHours parsedDate form.endHour form.endMin
  let client := clients.find? (fun c => c.id == form.clientId)
  { clientId := form.clientId
    clientName := clientLabel client
    date := form.date
    startISO := toUTCISO startDate
    endISO := toUTCISO endDate
    status := form.status
    location := if form.location = "" then none else some form.location
    notes := if form.notes = "" then none else some form.notes
    recurring := none }

/-- The batch handed to `onCreateSession` by `createSessions`
(`src/components/Calendar.tsx`): if `repeatWeekly` with a positive week
count, the weekly repeat dates mapped over the base session (date key and
times recomputed per repeat date, `recurring` set); otherwise the single
base session. -/
def createSessionsBatch (clients : List Client) (form : CreateSessionFormData)
    (parsedDate : Int) : List SessionData :=
  let startDate := setHours parsedDate form.startHour form.startMin
  let base := baseSessionData clients form parsedDate
  if form.repeatWeekly = true ∧ 0 < form.repeatWeeks then
    (getWeeklyRepeatDates startDate form.repeatWeeks).map (fun d =>
      { base with
          date := dateKey d
          startISO := toUTCISO (setHours d form.startHour form.startMin)
          endISO := toUTCISO (setHours d form.endHour form.endMin)
          recurring := some true })
  else [base]

/-- Outcome of the create path of `src/components/Calendar.tsx`: a
validation alert before any I/O, the past-session confirmation prompt, the
conflict prompt (nothing persisted; `Override` would persist), or the
batch handed to the repository. -/
inductive CreateOutcome where
  | validationError (msg : String)
  | pastPrompt
  | conflictPrompt (conflicts : List Session)
  | created (batch : List SessionData)
deriving DecidableEq

/-- `proceedWithCreate` from `src/components/Calendar.tsx`: run the
conflict check against the target day bucket; on any conflict return the
conflict prompt without persisting, otherwise hand the batch to the
repository. -/
def proceedWithCreate (buckets : Buckets) (clients : List Client)
    (form : CreateSessionFormData) (parsedDate : Int) : CreateOutcome :=
  let startDate := setHours parsedDate form.startHour form.startMin
  let endDate := setHours parsedDate form.endHour form.endMin
  let conflicts := checkConflicts buckets startDate endDate none
  if 0 < conflicts.length then CreateOutcome.conflictPrompt conflicts
  else CreateOutcome.created (createSessionsBatch clients form parsedDate)

/-- `handleCreateSession` from `src/components/Calendar.tsx`: reject a
missing client selection, then a start at or after the end; then, unless
read-only, prompt for a session starting in the past (`now` is the current
instant); otherwise proceed to the conflict check and creation. -/
def handleCreateSession (buckets : Buckets) (clients : List Client)
    (form : CreateSessionFormData) (parsedDate now : Int)
    (readOnly : Bool) : CreateOutcome :=
  let startDate := setHours parsedDate form.startHour form.startMin
  let endDate := setHours parsedDate form.endHour form.endMin
  if form.clientId = "" then
    CreateOutcome.validationError "Please select a client or add clients first"
  else if endDate ≤ startDate then
    CreateOutcome.validationError "End time must be after start time"
  else if startDate < now ∧ readOnly = false then
    CreateOutcome.pastPrompt
  else proceedWithCreate buckets clients form parsedDate

/-- The mutable state of `CalendarComponent` that `fetchMonth` touches:
the date-keyed buckets, the fetched-month marker set, and the error
message. -/
structure CalendarState where
  sessionsByDate : Buckets
  cachedMonths : List String
  error : Option String
deriving DecidableEq

/-- The month cache key `` `${year}-${month}` `` of `fetchMonth`
(`src/components/Calendar.tsx`), built from the unnormalised month
number. -/
def monthKey (year month : Int) : String := toString year ++ "-" ++ toString month

/-- `fetchMonth` from `src/components/Calendar.tsx`, with the injected
`loadSessions` collaborator abstracted as `repo` (a function of the
requested range).  Returns the new state and whether the repository was
called: a cache hit short-circuits; on success the fetched sessions are
grouped by date key, spread-merged over the buckets, and the month is
marked cached; on failure only the error message is set. -/
def fetchMonth (repo : Int → Int → Except Unit (List Session))
    (st : CalendarState) (year month : Int) (withPadding : Bool) :
    CalendarState × Bool :=
  let mk := monthKey year month
  if st.cachedMonths.contains mk then (st, false)
  else
    let range := getMonthRange year month (if withPadding then 2 else 0)
    match repo range.1 range.2 with
    | Except.ok sessions =>
      ({ st with
          sessionsByDate := spreadMerge st.sessionsByDate (groupByDate sessions)
          cachedMonths := st.cachedMonths ++ [mk] }, true)
    | Except.error _ =>
      ({ st with error := some "Failed to load sessions" }, true)

/-- C5: `dateRangesOverlap` is true exactly when `startA < endB` and
`startB < endA`; it is symmetric in its two intervals, and intervals that
merely touch at an endpoint do not overlap. -/
theorem dateRangesOverlap_spec (sA eA sB eB : Int) :
    (dateRangesOverlap sA eA sB eB = true ↔ sA < eB ∧ sB < eA) ∧
    dateRangesOverlap sA eA sB eB = dateRangesOverlap sB eB sA eA ∧
    (eA = sB → dateRangesOverlap sA eA sB eB = false) ∧
    (eB = sA → dateRangesOverlap sA eA sB eB = false) := by
  refine ⟨by simp [dateRangesOverlap], ?_, ?_, ?_⟩
  · simp only [dateRangesOverlap]
    exact Bool.and_comm _ _
  · rintro rfl
    simp [dateRangesOverlap]
  · rintro rfl
    simp [dateRangesOverlap]

/-- C5 witness: the spec's example — 10:00–11:00 and 11:00–12:00 (as
minutes of the day) merely touch and do not overlap. -/
theorem dateRangesOverlap_spec_witness :
    dateRangesOverlap 600 660 660 720 = false :=
  (dateRangesOverlap_spec 600 660 660 720).2.2.1 rfl

/-- Concrete stored session for the C1 counterexample: status `booked`,
client `c1`, start inside the queried range. -/
def c1Session : Session :=
  { id := "s1", clientId := "c1", date := "2024-03-04",
    startISO := 100, endISO := 160, status := SessionStatus.booked }

/-- C1 counterexample: with both a non-empty status filter and a clientId
filter (`c2`), `loadSessions` returns the stored session even though its
clientId is `c1` — the clientId filter is not AND-combined with the
status filter, so the claimed result (only sessions of client `c2`) is
wrong at this input. -/
theorem loadSessions_both_filters_cex :
    loadSessions [c1Session] 0 1000
        (some { status := [SessionStatus.booked], clientId := some "c2" }) =
      [c1Session] ∧
    c1Session.clientId ≠ "c2" := by
  constructor
  · rfl
  · decide

/-- C1 (amended): when a non-empty status filter is present the clientId
filter is ignored: the call equals the same call without a clientId
filter, and a session is returned exactly when it is stored, starts
within the closed range, and has a status in the filter set. -/
theorem loadSessions_status_shadows_clientId (stored : List Session)
    (a b : Int) (sts : List SessionStatus) (cid : Option String)
    (h : 0 < sts.length) :
    loadSessions stored a b (some { status := sts, clientId := cid }) =
      loadSessions stored a b (some { status := sts, clientId := none }) ∧
    ∀ s, s ∈ loadSessions stored a b (some { status := sts, clientId := cid }) ↔
      s ∈ stored ∧ a ≤ s.startISO ∧ s.startISO ≤ b ∧
        sts.contains s.status = true := by
  constructor
  · simp [loadSessions, h]
  · intro s
    simp [loadSessions, h, List.mem_filter, and_assoc]
    tauto

/-- C1 witness: the amended theorem applied at the counterexample input. -/
theorem loadSessions_status_shadows_clientId_witness :
    loadSessions [c1Session] 0 1000
        (some { status := [SessionStatus.booked], clientId := some "c2" }) =
      loadSessions [c1Session] 0 1000
        (some { status := [SessionStatus.booked], clientId := none }) :=
  (loadSessions_status_shadows_clientId [c1Session] 0 1000
    [SessionStatus.booked] (some "c2") (by decide)).1

/-- Filtering out the entries whose key occurs in `grouped` does not
change the first entry found for a key that `grouped` lacks. -/
theorem find?_filter_of_not_hasKey (grouped : Buckets) (k : String)
    (hk : hasKey grouped k = false) (prev : Buckets) :
    (prev.filter (fun p => !(hasKey grouped p.1))).find? (fun p => p.1 == k) =
      prev.find? (fun p => p.1 == k) := by
  induction prev with
  | nil => rfl
  | cons a l ih =>
    by_cases ha : a.1 = k
    · have hq : (!(hasKey grouped a.1)) = true := by rw [ha, hk]; rfl
      simp [List.filter_cons, hq, ha, hk]
    · have hpa : (a.1 == k) = false := by simp [ha]
      cases hq : hasKey grouped a.1 <;>
        simp [List.filter_cons, hq, hpa, ih]

/-- The bucket a key holds after the object spread `{ ...prev, ...grouped }`:
the bucket of `grouped` if `grouped` has the key (wholesale replacement),
else the bucket of `prev`. -/
theorem bucketLookup_spreadMerge (prev grouped : Buckets) (k : String) :
    bucketLookup (spreadMerge prev grouped) k =
      if hasKey grouped k then bucketLookup grouped k else bucketLookup prev k := by
  unfold bucketLookup spreadMerge
  rw [List.find?_append]
  by_cases h : hasKey grouped k = true
  · have hs : (grouped.find? (fun p => p.1 == k)).isSome := by
      rw [List.find?_isSome]
      simpa [hasKey, List.any_eq_true] using h
    cases hg : grouped.find? (fun p => p.1 == k) with
    | none => rw [hg] at hs; simp at hs
    | some v => simp [hg, h]
  · have hf : hasKey grouped k = false := by simpa using h
    have hg : grouped.find? (fun p => p.1 == k) = none := by
      rw [List.find?_eq_none]
      intro x hx hbeq
      apply h
      rw [hasKey, List.any_eq_true]
      exact ⟨x, hx, hbeq⟩
    rw [hg, find?_filter_of_not_hasKey grouped k hf prev]
    simp [hf]

/-- First session of the C3 counterexample, already present in the
2024-03-04 bucket before the merge. -/
def c3s1 : Session :=
  { id := "s1", clientId := "c1", date := "2024-03-04",
    startISO := 540, endISO := 600, status := SessionStatus.booked }

/-- Second session of the C3 counterexample, arriving with the merged
group for the same date key but a different id. -/
def c3s2 : Session :=
  { id := "s2", clientId := "c2", date := "2024-03-04",
    startISO := 660, endISO := 720, status := SessionStatus.booked }

/-- C3 counterexample: merging a group for date key 2024-03-04 into a
cache whose 2024-03-04 bucket holds a session with a different id drops
that session — the merge replaces the bucket wholesale instead of adding
to it, falsifying the claim that sessions already present are kept. -/
theorem spreadMerge_drops_existing_cex :
    bucketLookup (spreadMerge [("2024-03-04", [c3s1])] (groupByDate [c3s2]))
        "2024-03-04" = [c3s2] ∧
    c3s1 ∉ bucketLookup (spreadMerge [("2024-03-04", [c3s1])] (groupByDate [c3s2]))
        "2024-03-04" ∧
    c3s1.id ≠ c3s2.id := by
  decide

/-- C3 (amended): the merge of a grouped session list replaces each
bucket whose date key occurs in the group wholesale, preserves the
buckets of keys the group lacks, and is idempotent: merging the same
group twice leaves every bucket as after merging once. -/
theorem spreadMerge_buckets (prev : Buckets) (ss : List Session) (k : String) :
    (hasKey (groupByDate ss) k = true →
      bucketLookup (spreadMerge prev (groupByDate ss)) k =
        bucketLookup (groupByDate ss) k) ∧
    (hasKey (groupByDate ss) k = false →
      bucketLookup (spreadMerge prev (groupByDate ss)) k = bucketLookup prev k) ∧
    bucketLookup (spreadMerge (spreadMerge prev (groupByDate ss)) (groupByDate ss)) k =
      bucketLookup (spreadMerge prev (groupByDate ss)) k := by
  refine ⟨?_, ?_, ?_⟩
  · intro h
    rw [bucketLookup_spreadMerge, if_pos h]
  · intro h
    rw [bucketLookup_spreadMerge, h]
    simp
  · rw [bucketLookup_spreadMerge, bucketLookup_spreadMerge]
    by_cases h : hasKey (groupByDate ss) k = true <;> simp [h]

/-- C3 witness: the amended theorem applied at the counterexample input
(the merged group holds the 2024-03-04 key, so that bucket is taken from
the group). -/
theorem spreadMerge_buckets_witness :
    bucketLookup (spreadMerge [("2024-03-04", [c3s1])] (groupByDate [c3s2]))
        "2024-03-04" = bucketLookup (groupByDate [c3s2]) "2024-03-04" :=
  (spreadMerge_buckets [("2024-03-04", [c3s1])] [c3s2] "2024-03-04").1 (by decide)

/-- Client roster for the C2 counterexample. -/
def c2Clients : List Client := [{ id := "c1", displayName := some "Alice" }]

/-- Create form for the C2 counterexample: repeat weekly, one week,
09:00–10:00 on 2024-03-04. -/
def c2Form : CreateSessionFormData :=
  { clientId := "c1", date := "2024-03-04", startHour := 9, startMin := 0,
    endHour := 10, endMin := 0, duration := 60, status := SessionStatus.booked,
    location := "", notes := "", repeatWeekly := true, repeatWeeks := 1 }

/-- `new Date('2024-03-04')` as an instant (2024-03-04 is epoch day
19786). -/
def c2ParsedDate : Int := 19786 * 1440

/-- C2 counterexample: with `repeatWeekly` and a repeat count of `N = 1`,
the persisted batch holds exactly 1 session, not the claimed `N + 1 = 2`,
and the base session itself is not in the batch — the caller never
combines the base session back in. -/
theorem createSessions_batch_cex :
    c2Form.repeatWeekly = true ∧ c2Form.repeatWeeks = 1 ∧
    (createSessionsBatch c2Clients c2Form c2ParsedDate).length = 1 ∧
    baseSessionData c2Clients c2Form c2ParsedDate ∉
      createSessionsBatch c2Clients c2Form c2ParsedDate := by
  decide

/-- `getWeeklyRepeatDates` produces one date per requested week. -/
theorem getWeeklyRepeatDates_length (startDate weeks : Int) :
    (getWeeklyRepeatDates startDate weeks).length = weeks.toNat := by
  unfold getWeeklyRepeatDates
  rw [List.length_map, List.length_range]

/-- C2 (amended): for a create request with `repeatWeekly` and repeat
count `N ≥ 1`, the batch persisted via the repository consists of the `N`
expanded instances only (`N` sessions in total); the base session is not
part of the batch. -/
theorem createSessionsBatch_excludes_base (clients : List Client)
    (form : CreateSessionFormData) (parsedDate : Int)
    (h1 : form.repeatWeekly = true) (h2 : 1 ≤ form.repeatWeeks) :
    (createSessionsBatch clients form parsedDate).length = form.repeatWeeks.toNat ∧
    baseSessionData clients form parsedDate ∉
      createSessionsBatch clients form parsedDate := by
  have hpos : 0 < form.repeatWeeks := h2
  constructor
  · simp only [createSessionsBatch, if_pos (And.intro h1 hpos)]
    rw [List.length_map, getWeeklyRepeatDates_length]
  · intro hmem
    simp only [createSessionsBatch, if_pos (And.intro h1 hpos),
      getWeeklyRepeatDates, List.mem_map] at hmem
    obtain ⟨i, _, heq⟩ := hmem
    have hrec := congrArg SessionData.recurring heq
    simp [baseSessionData] at hrec

/-- C2 witness: the amended theorem applied at the counterexample input. -/
theorem createSessionsBatch_excludes_base_witness :
    (createSessionsBatch c2Clients c2Form c2ParsedDate).length =
      c2Form.repeatWeeks.toNat :=
  (createSessionsBatch_excludes_base c2Clients c2Form c2ParsedDate
    (by decide) (by decide)).1

/-- C7: with `repeatWeekly` and a repeat count of 3, the expansion
produces exactly the three sessions whose date keys are the days 7, 14
and 21 days after the base day `dd` (the parsed form date), whose start
and end instants sit on those days at the form's times, and whose start
and end time-of-day (hour and minute) equal the base session's. -/
theorem expandWeekly_three (clients : List Client) (form : CreateSessionFormData)
    (dd : Int) (hfw : form.repeatWeekly = true) (hw3 : form.repeatWeeks = 3)
    (_hdate : form.date = dateKeyOfDay dd)
    (hb0 : 0 ≤ form.startHour * 60 + form.startMin)
    (hb1 : form.startHour * 60 + form.startMin < 1440) :
    createSessionsBatch clients form (dd * 1440) =
      [ { baseSessionData clients form (dd * 1440) with
            date := dateKeyOfDay (dd + 7)
            startISO := (dd + 7) * 1440 + (form.startHour * 60 + form.startMin)
            endISO := (dd + 7) * 1440 + (form.endHour * 60 + form.endMin)
            recurring := some true },
        { baseSessionData clients form (dd * 1440) with
            date := dateKeyOfDay (dd + 14)
            startISO := (dd + 14) * 1440 + (form.startHour * 60 + form.startMin)
            endISO := (dd + 14) * 1440 + (form.endHour * 60 + form.endMin)
            recurring := some true },
        { baseSessionData clients form (dd * 1440) with
            date := dateKeyOfDay (dd + 21)
            startISO := (dd + 21) * 1440 + (form.startHour * 60 + form.startMin)
            endISO := (dd + 21) * 1440 + (form.endHour * 60 + form.endMin)
            recurring := some true } ] ∧
    ∀ s ∈ createSessionsBatch clients form (dd * 1440),
      getHours s.startISO = getHours (baseSessionData clients form (dd * 1440)).startISO ∧
      getMinutes s.startISO = getMinutes (baseSessionData clients form (dd * 1440)).startISO ∧
      getHours s.endISO = getHours (baseSessionData clients form (dd * 1440)).endISO ∧
      getMinutes s.endISO = getMinutes (baseSessionData clients form (dd * 1440)).endISO := by
  have h1440 : (1440 : Int) ≠ 0 := by norm_num
  have hpos : 0 < form.repeatWeeks := by omega
  have hsetH : setHours (dd * 1440) form.startHour form.startMin
      = dd * 1440 + (form.startHour * 60 + form.startMin) := by
    unfold setHours
    omega
  have hday : ∀ k : Int,
      (dd * 1440 + (form.startHour * 60 + form.startMin) + k * 1440) / 1440 = dd + k := by
    intro k
    omega
  have hsetS : ∀ k : Int,
      setHours (dd * 1440 + (form.startHour * 60 + form.startMin) + k * 1440)
          form.startHour form.startMin
        = (dd + k) * 1440 + (form.startHour * 60 + form.startMin) := by
    intro k
    unfold setHours
    rw [hday k]
    ring
  have hsetE : ∀ k : Int,
      setHours (dd * 1440 + (form.startHour * 60 + form.startMin) + k * 1440)
          form.endHour form.endMin
        = (dd + k) * 1440 + (form.endHour * 60 + form.endMin) := by
    intro k
    unfold setHours
    rw [hday k]
    ring
  have hdk : ∀ k : Int,
      dateKey (dd * 1440 + (form.startHour * 60 + form.startMin) + k * 1440)
        = dateKeyOfDay (dd + k) := by
    intro k
    unfold dateKey
    rw [hday k]
  have hrange : List.range (3 : Int).toNat = [0, 1, 2] := rfl
  have hr : getWeeklyRepeatDates (dd * 1440 + (form.startHour * 60 + form.startMin)) 3
      = [dd * 1440 + (form.startHour * 60 + form.startMin) + 7 * 1440,
         dd * 1440 + (form.startHour * 60 + form.startMin) + 14 * 1440,
         dd * 1440 + (form.startHour * 60 + form.startMin) + 21 * 1440] := by
    unfold getWeeklyRepeatDates
    rw [hrange]
    simp only [List.map_cons, List.map_nil, List.cons.injEq, and_true]
    refine ⟨by norm_num, by norm_num, by norm_num⟩
  have hbatch : createSessionsBatch clients form (dd * 1440) =
      [ { baseSessionData clients form (dd * 1440) with
            date := dateKeyOfDay (dd + 7)
            startISO := (dd + 7) * 1440 + (form.startHour * 60 + form.startMin)
            endISO := (dd + 7) * 1440 + (form.endHour * 60 + form.endMin)
            recurring := some true },
        { baseSessionData clients form (dd * 1440) with
            date := dateKeyOfDay (dd + 14)
            startISO := (dd + 14) * 1440 + (form.startHour * 60 + form.startMin)
            endISO := (dd + 14) * 1440 + (form.endHour * 60 + form.endMin)
            recurring := some true },
        { baseSessionData clients form (dd * 1440) with
            date := dateKeyOfDay (dd + 21)
            startISO := (dd + 21) * 1440 + (form.startHour * 60 + form.startMin)
            endISO := (dd + 21) * 1440 + (form.endHour * 60 + form.endMin)
            recurring := some true } ] := by
    simp only [createSessionsBatch, hw3, hsetH, toUTCISO]
    rw [hr]
    simp only [List.map_cons, List.map_nil]
    rw [hsetS 7, hsetS 14, hsetS 21, hsetE 7, hsetE 14, hsetE 21, hdk 7, hdk 14, hdk 21,
      if_pos (And.intro hfw (by norm_num : (0 : Int) < 3))]
  refine ⟨hbatch, ?_⟩
  have hbase_s : (baseSessionData clients form (dd * 1440)).startISO
      = dd * 1440 + (form.startHour * 60 + form.startMin) := by
    simp only [baseSessionData, toUTCISO]
    exact hsetH
  have hbase_e : (baseSessionData clients form (dd * 1440)).endISO
      = dd * 1440 + (form.endHour * 60 + form.endMin) := by
    simp only [baseSessionData, toUTCISO]
    unfold setHours
    omega
  have hemod : ∀ a t : Int, (a * 1440 + t) % 1440 = t % 1440 := by
    intro a t
    rw [add_comm]
    exact Int.add_mul_emod_self
  have hgh : ∀ a b t : Int, getHours (a * 1440 + t) = getHours (b * 1440 + t) := by
    intro a b t
    unfold getHours
    rw [hemod a t, hemod b t]
  have hgm : ∀ a b t : Int, getMinutes (a * 1440 + t) = getMinutes (b * 1440 + t) := by
    intro a b t
    unfold getMinutes
    rw [hemod a t, hemod b t]
  intro s hs
  rw [hbatch] at hs
  simp only [List.mem_cons, List.not_mem_nil, or_false] at hs
  rcases hs with rfl | rfl | rfl <;>
    exact ⟨by rw [hbase_s]; exact hgh _ _ _, by rw [hbase_s]; exact hgm _ _ _,
           by rw [hbase_e]; exact hgh _ _ _, by rw [hbase_e]; exact hgm _ _ _⟩

/-- Client roster for the C7 witness. -/
def c7Clients : List Client := [{ id := "c1", displayName := some "Alice" }]

/-- Create form for the C7 witness: repeat weekly for 3 weeks,
09:00–10:00 on 2024-03-04 (epoch day 19786). -/
def c7Form : CreateSessionFormData :=
  { clientId := "c1", date := "2024-03-04", startHour := 9, startMin := 0,
    endHour := 10, endMin := 0, duration := 60, status := SessionStatus.booked,
    location := "", notes := "", repeatWeekly := true, repeatWeeks := 3 }

/-- C7 witness: the expansion theorem applied at the concrete
2024-03-04 09:00–10:00 form. -/
theorem expandWeekly_three_witness :
    createSessionsBatch c7Clients c7Form (19786 * 1440) =
      [ { baseSessionData c7Clients c7Form (19786 * 1440) with
            date := dateKeyOfDay (19786 + 7)
            startISO := (19786 + 7) * 1440 + (c7Form.startHour * 60 + c7Form.startMin)
            endISO := (19786 + 7) * 1440 + (c7Form.endHour * 60 + c7Form.endMin)
            recurring := some true },
        { baseSessionData c7Clients c7Form (19786 * 1440) with
            date := dateKeyOfDay (19786 + 14)
            startISO := (19786 + 14) * 1440 + (c7Form.startHour * 60 + c7Form.startMin)
            endISO := (19786 + 14) * 1440 + (c7Form.endHour * 60 + c7Form.endMin)
            recurring := some true },
        { baseSessionData c7Clients c7Form (19786 * 1440) with
            date := dateKeyOfDay (19786 + 21)
            startISO := (19786 + 21) * 1440 + (c7Form.startHour * 60 + c7Form.startMin)
            endISO := (19786 + 21) * 1440 + (c7Form.endHour * 60 + c7Form.endMin)
            recurring := some true } ] :=
  (expandWeekly_three c7Clients c7Form 19786 rfl rfl (by decide)
    (by decide) (by decide)).1

/-- The session already booked 09:00Z–10:00Z on 2024-03-04 (epoch day
19786) in the C4 scenario. -/
def c4Existing : Session :=
  { id := "s-existing", clientId := "c9", clientName := some "Bob",
    date := "2024-03-04", startISO := 19786 * 1440 + 540,
    endISO := 19786 * 1440 + 600, status := SessionStatus.booked }

/-- The day buckets of the C4 scenario: the 2024-03-04 bucket holds
exactly the existing 09:00–10:00 session. -/
def c4Buckets : Buckets := [("2024-03-04", [c4Existing])]

/-- Create form of the C4 scenario: 09:30–10:30 on 2024-03-04 for client
`c1`. -/
def c4Form : CreateSessionFormData :=
  { clientId := "c1", date := "2024-03-04", startHour := 9, startMin := 30,
    endHour := 10, endMin := 30, duration := 60, status := SessionStatus.booked,
    location := "", notes := "", repeatWeekly := false, repeatWeeks := 1 }

/-- C4: with the 2024-03-04 bucket holding the 09:00Z–10:00Z session, the
create request for 2024-03-04 09:30Z–10:30Z finds exactly one conflict —
the original session — and the create path returns the conflict prompt
(nothing handed to the repository) rather than persisting. -/
theorem conflict_blocks_create :
    checkConflicts c4Buckets (19786 * 1440 + 570) (19786 * 1440 + 630) none =
      [c4Existing] ∧
    handleCreateSession c4Buckets [{ id := "c1", displayName := some "Ann" }]
        c4Form (19786 * 1440) (19786 * 1440) false =
      CreateOutcome.conflictPrompt [c4Existing] := by
  constructor
  · decide
  · decide

/-- C8: a create request with no client selected, or with the computed
start at or after the computed end, is rejected with a validation alert
before any I/O: the outcome is a `validationError`, never the conflict
prompt (no conflict check result) and never a `created` batch (no
repository call). -/
theorem validation_rejects_before_io (buckets : Buckets) (clients : List Client)
    (form : CreateSessionFormData) (parsedDate now : Int) (readOnly : Bool) :
    (form.clientId = "" →
      handleCreateSession buckets clients form parsedDate now readOnly =
        CreateOutcome.validationError "Please select a client or add clients first") ∧
    (form.clientId ≠ "" →
      setHours parsedDate form.endHour form.endMin ≤
          setHours parsedDate form.startHour form.startMin →
      handleCreateSession buckets clients form parsedDate now readOnly =
        CreateOutcome.validationError "End time must be after start time") ∧
    (∀ batch conflicts,
      (form.clientId = "" ∨
        setHours parsedDate form.endHour form.endMin ≤
          setHours parsedDate form.startHour form.startMin) →
      handleCreateSession buckets clients form parsedDate now readOnly ≠
          CreateOutcome.created batch ∧
        handleCreateSession buckets clients form parsedDate now readOnly ≠
          CreateOutcome.conflictPrompt conflicts) := by
  refine ⟨?_, ?_, ?_⟩
  · intro h
    simp [handleCreateSession, h]
  · intro h hle
    simp [handleCreateSession, h, hle]
  · intro batch conflicts h
    by_cases hc : form.clientId = ""
    · constructor <;> simp [handleCreateSession, hc]
    · rcases h with h | h
      · exact absurd h hc
      · constructor <;> simp [handleCreateSession, hc, h]

/-- Create form with no client selected, for the C8 witness. -/
def c8Form : CreateSessionFormData :=
  { clientId := "", date := "2024-03-04", startHour := 9, startMin := 0,
    endHour := 10, endMin := 0, duration := 60, status := SessionStatus.booked,
    location := "", notes := "", repeatWeekly := false, repeatWeeks := 1 }

/-- C8 witness: the validation theorem applied at a concrete form with no
client selected. -/
theorem validation_rejects_before_io_witness :
    handleCreateSession [] [] c8Form 0 0 false =
      CreateOutcome.validationError "Please select a client or add clients first" :=
  (validation_rejects_before_io [] [] c8Form 0 0 false).1 rfl

/-- C6: when a month fetch actually issues a repository load (the month
was not cached) and the load fails, the controller records the error
message (the Error state) while the cache survives untouched: the date
buckets and the cached-month markers equal their pre-fetch values. -/
theorem fetchMonth_error_preserves_cache
    (repo : Int → Int → Except Unit (List Session)) (st : CalendarState)
    (year month : Int) (withPadding : Bool)
    (hmiss : st.cachedMonths.contains (monthKey year month) = false)
    (hfail : repo (getMonthRange year month (if withPadding then 2 else 0)).1
        (getMonthRange year month (if withPadding then 2 else 0)).2 =
      Except.error ()) :
    (fetchMonth repo st year month withPadding).1.sessionsByDate =
        st.sessionsByDate ∧
    (fetchMonth repo st year month withPadding).1.error =
        some "Failed to load sessions" ∧
    (fetchMonth repo st year month withPadding).1.cachedMonths =
        st.cachedMonths ∧
    (fetchMonth repo st year month withPadding).2 = true := by
  have hni : monthKey year month ∉ st.cachedMonths := by simpa using hmiss
  simp [fetchMonth, hni, hfail]

/-- The repository stub that always fails, for the C6 witness. -/
def c6Repo : Int → Int → Except Unit (List Session) := fun _ _ => Except.error ()

/-- Pre-fetch controller state for the C6 witness: one populated bucket,
no cached months, no error. -/
def c6State : CalendarState :=
  { sessionsByDate := [("2024-03-04", [c4Existing])], cachedMonths := [],
    error := none }

/-- C6 witness: the failure-preservation theorem applied at the concrete
failing repository and populated state. -/
theorem fetchMonth_error_preserves_cache_witness :
    (fetchMonth c6Repo c6State 2024 3 true).1.sessionsByDate =
      c6State.sessionsByDate :=
  (fetchMonth_error_preserves_cache c6Repo c6State 2024 3 true rfl rfl).1

/-- C9: a month key is marked cached only by a successful load — a failed
load leaves the marker set unchanged, so fetching the same month again
issues the repository call again; a successful load merges the grouped
results, appends the marker, and a subsequent fetch of that month
short-circuits without calling the repository. -/
theorem fetchMonth_marks_only_on_success
    (rfail rok repo2 : Int → Int → Except Unit (List Session))
    (st : CalendarState) (year month : Int) (withPadding : Bool)
    (ss : List Session)
    (hmiss : st.cachedMonths.contains (monthKey year month) = false)
    (hfail : rfail (getMonthRange year month (if withPadding then 2 else 0)).1
        (getMonthRange year month (if withPadding then 2 else 0)).2 =
      Except.error ())
    (hok : rok (getMonthRange year month (if withPadding then 2 else 0)).1
        (getMonthRange year month (if withPadding then 2 else 0)).2 =
      Except.ok ss) :
    (fetchMonth rfail st year month withPadding).1.cachedMonths =
        st.cachedMonths ∧
    (fetchMonth repo2 (fetchMonth rfail st year month withPadding).1
        year month withPadding).2 = true ∧
    (fetchMonth rok st year month withPadding).1.cachedMonths =
        st.cachedMonths ++ [monthKey year month] ∧
    (fetchMonth rok st year month withPadding).1.sessionsByDate =
        spreadMerge st.sessionsByDate (groupByDate ss) ∧
    (fetchMonth repo2 (fetchMonth rok st year month withPadding).1
        year month withPadding).2 = false := by
  have hni : monthKey year month ∉ st.cachedMonths := by simpa using hmiss
  have h1 : (fetchMonth rfail st year month withPadding).1 =
      { st with error := some "Failed to load sessions" } := by
    simp [fetchMonth, hni, hfail]
  have h2 : (fetchMonth rok st year month withPadding).1 =
      { st with
          sessionsByDate := spreadMerge st.sessionsByDate (groupByDate ss)
          cachedMonths := st.cachedMonths ++ [monthKey year month] } := by
    simp [fetchMonth, hni, hok]
  refine ⟨by rw [h1], ?_, by rw [h2], by rw [h2], ?_⟩
  · rw [h1]
    cases hres : repo2 (getMonthRange year month (if withPadding then 2 else 0)).1
        (getMonthRange year month (if withPadding then 2 else 0)).2 <;>
      simp [fetchMonth, hni, hres]
  · rw [h2]
    have hc : monthKey year month ∈ st.cachedMonths ++ [monthKey year month] := by
      simp
    simp [fetchMonth, hc]

/-- C9 witness: the marker theorem applied at a concrete empty state with
a failing, a succeeding, and a second failing repository stub. -/
theorem fetchMonth_marks_only_on_success_witness :
    (fetchMonth c6Repo { sessionsByDate := [], cachedMonths := [], error := none }
        2024 3 true).1.cachedMonths = [] :=
  (fetchMonth_marks_only_on_success c6Repo
    (fun _ _ => Except.ok [c4Existing]) c6Repo
    { sessionsByDate := [], cachedMonths := [], error := none }
    2024 3 true [c4Existing] rfl rfl rfl).1

/-- A December-2023 session returned by the repository stub of the C10
scenario (2023-12-15 is epoch day 19706). -/
def c10Session : Session :=
  { id := "sx", clientId := "c1", date := "2023-12-15",
    startISO := 19706 * 1440 + 540, endISO := 19706 * 1440 + 600,
    status := SessionStatus.booked }

/-- The repository stub of the C10 scenario: every range query returns
the December-2023 session. -/
def c10Repo : Int → Int → Except Unit (List Session) :=
  fun _ _ => Except.ok [c10Session]

/-- C10: while viewing January 2024, the adjacent-month prefetch calls
`fetchMonth` with month `0` and records the marker under the unnormalised
key `2024-0`; selecting December 2023 uses the key `2023-12`.  The two
keys differ even though the unpadded ranges coincide (both are December
2023), so after the prefetch has merged the December session into the
buckets, the selection still issues the repository call again. -/
theorem prefetch_key_never_matches_selection :
    monthKey 2024 0 ≠ monthKey 2023 12 ∧
    getMonthRange 2024 0 0 = getMonthRange 2023 12 0 ∧
    (fetchMonth c10Repo
        { sessionsByDate := [], cachedMonths := [], error := none }
        2024 0 false).1.cachedMonths = ["2024-0"] ∧
    bucketLookup (fetchMonth c10Repo
        { sessionsByDate := [], cachedMonths := [], error := none }
        2024 0 false).1.sessionsByDate "2023-12-15" = [c10Session] ∧
    (fetchMonth c10Repo (fetchMonth c10Repo
        { sessionsByDate := [], cachedMonths := [], error := none }
        2024 0 false).1 2023 12 true).2 = true := by
  refine ⟨by decide, by decide, by decide, by decide, by decide⟩
